import Mathlib

/-!
Verification of the SurEtBon backend ingestion scripts and lookup API.

Shallow embedding of:
- src/bin/download_alimconfiance_data.py and src/bin/download_osm_data.py
  (load_environment, get_alimconfiance_date / get_osm_date,
   download_*_data, upload_to_storage, create_database_table, main),
- src/bin/setup_bucket.py (load_environment),
- src/main.py (the POST get_restaurants endpoint).

Effectful vendor-SDK calls (HTTP download, Supabase storage, SQL database)
are modelled by passing in an outcome oracle for each call together with the
explicit state the call touches (local temp file, bucket object list, table
rows); the control flow around those calls is translated line by line from
the Python source.
-/

namespace SurEtBon

/-! ### Environment loader
Embeds load_environment from src/bin/download_alimconfiance_data.py
(lines 161-185), src/bin/download_osm_data.py (lines 150-174) and
src/bin/setup_bucket.py (lines 104-128).  The three copies differ only in
the list of required variable names.  The process environment is modelled
as a function from names to optional values; the Python check
"if not value" treats both an unset variable (None) and an empty string
as missing, which truthy reproduces. -/

def truthy : Option String → Bool
  | none => false
  | some s => !(s == "")

def requiredVars : List String :=
  ["SUPABASE_URL", "SUPABASE_SERVICE_ROLE_KEY", "SUPABASE_DB_URI"]

def requiredVarsBucket : List String :=
  ["SUPABASE_URL", "SUPABASE_SERVICE_ROLE_KEY"]

/-- The validation loop of load_environment: walks the required names in
order, collecting (name, value) pairs for configured names and the names of
the missing ones, exactly as the Python for-loop fills env_vars and
missing_vars. -/
def collectVars (env : String → Option String) : List String → List (String × String) × List String
  | [] => ([], [])
  | v :: rest =>
    let acc := collectVars env rest
    if truthy (env v) then ((v, (env v).getD "") :: acc.1, acc.2)
    else (acc.1, v :: acc.2)

/-- load_environment: returns the mapping of all required variables when none
is missing, otherwise terminates the process with the full list of missing
names (sys.exit(1) after printing the joined missing_vars list).  The
Except.error carries the complete missing list, mirroring the printed
message naming every missing key. -/
def loadEnvironment (required : List String) (env : String → Option String) :
    Except (List String) (List (String × String)) :=
  let acc := collectVars env required
  if acc.2.isEmpty then .ok acc.1 else .error acc.2

def exceptOk {ε α : Type} : Except ε α → Bool
  | .ok _ => true
  | .error _ => false

/-! ### Snapshot date labels
Embeds get_alimconfiance_date (download_alimconfiance_data.py lines 188-201)
and get_osm_date (download_osm_data.py lines 177-217).  The current date
datetime.now() is modelled as a day count since 1970-01-01; Python weekday()
(Monday = 0) of such a day is (d + 3) % 7 since 1970-01-01 was a Thursday.
strftime with format %Y-%m-%d is modelled by formatYMD, which converts the
day count to a Gregorian civil date and zero-pads month and day. -/

def pyWeekday (d : Nat) : Nat := (d + 3) % 7

/-- The day-count computation inside get_osm_date: today when today is a
Monday, otherwise today minus days_since_monday. -/
def get_osm_day (today : Nat) : Nat :=
  if pyWeekday today = 0 then today else today - pyWeekday today

/-- Gregorian civil date (year, month, day) from a day count since
1970-01-01, for nonnegative day counts. -/
def civilFromDays (z : Nat) : Nat × Nat × Nat :=
  let z' := z + 719468
  let era := z' / 146097
  let doe := z' % 146097
  let yoe := (doe - doe / 1460 + doe / 36524 - doe / 146096) / 365
  let y := yoe + era * 400
  let doy := doe - (365 * yoe + yoe / 4 - yoe / 100)
  let mp := (5 * doy + 2) / 153
  let d := doy - (153 * mp + 2) / 5 + 1
  let m := if mp < 10 then mp + 3 else mp - 9
  (if m ≤ 2 then y + 1 else y, m, d)

def pad2 (n : Nat) : String :=
  if n < 10 then "0" ++ toString n else toString n

/-- strftime %Y-%m-%d on a day count. -/
def formatYMD (day : Nat) : String :=
  let c := civilFromDays day
  toString c.1 ++ "-" ++ pad2 c.2.1 ++ "-" ++ pad2 c.2.2

/-- get_alimconfiance_date: datetime.now().strftime, i.e. today formatted. -/
def get_alimconfiance_date (today : Nat) : String := formatYMD today

/-- get_osm_date: the most recent Monday computation followed by strftime. -/
def get_osm_date (today : Nat) : String := formatYMD (get_osm_day today)

/-! ### Snapshot fetcher
Embeds download_alimconfiance_data (lines 204-298) and download_osm_data
(lines 220-314).  The HTTP interaction is modelled by a FetchOutcome oracle:
either the request or raise_for_status raises before the destination file is
opened (connectError), or a transport error is raised while streaming
chunks after some bytes were already written (streamError), or the stream
completes with a final file size (complete).  The result records the
returned path and the state of the local temp file (none = absent,
some n = present with n bytes). -/

inductive FetchOutcome : Type where
  | connectError : FetchOutcome
  | streamError : Nat → FetchOutcome
  | complete : Nat → FetchOutcome
deriving DecidableEq

structure FetchResult : Type where
  returnedPath : Option String
  tempFile : Option Nat
deriving DecidableEq

def tempPath (filename : String) : String := "/tmp/" ++ filename

/-- The shared body of download_alimconfiance_data / download_osm_data.
On connectError the open() was never reached, so no file exists and None is
returned.  On streamError the file was created and the except handler
returns None without removing it (the handlers at lines 289-298 and 305-314
only print).  On completion, a zero-byte file is removed and None returned
(lines 281-285 and 297-301); otherwise the path is returned. -/
def downloadSnapshot (filename : String) : FetchOutcome → FetchResult
  | .connectError => ⟨none, none⟩
  | .streamError written => ⟨none, some written⟩
  | .complete size =>
    if size = 0 then ⟨none, none⟩
    else ⟨some (tempPath filename), some size⟩

/-! ### Object store publisher
Embeds upload_to_storage (download_alimconfiance_data.py lines 301-390,
download_osm_data.py lines 317-406).  The bucket is the list of object
paths in the data_lake bucket.  Oracles: readOk for reading the local file,
listOk for the storage list call, deleteOk for the remove call, uploadOk
for the upload call.  The inner try swallows list/delete failures and
proceeds; only a failure of the read or of the upload reaches the outer
except, which returns None. -/

structure StorageOutcomes : Type where
  readOk : Bool
  listOk : Bool
  deleteOk : Bool
  uploadOk : Bool
deriving DecidableEq

structure UploadResult : Type where
  returnedPath : Option String
  bucket : List String
  uploadAttempted : Bool
deriving DecidableEq

def storagePathOf (folder date : String) : String :=
  folder ++ "/" ++ date ++ ".parquet"

/-- upload_to_storage.  When the listing succeeds, the loop deletes the
object whose name equals date.parquet under the dataset folder (i.e. the
object at the exact storage path) and breaks; a raising remove is swallowed
by the inner except and leaves the bucket unchanged.  A successful upload
appends the object and returns the storage path; a failing upload returns
None, leaving no partial object. -/
def upload_to_storage (o : StorageOutcomes) (bucket : List String) (folder date : String) :
    UploadResult :=
  let storage_path := storagePathOf folder date
  if o.readOk then
    let bucket1 :=
      if o.listOk && bucket.contains storage_path && o.deleteOk then
        bucket.filter (fun p => !(p == storage_path))
      else bucket
    if o.uploadOk then ⟨some storage_path, bucket1 ++ [storage_path], true⟩
    else ⟨none, bucket1, true⟩
  else ⟨none, bucket, false⟩

/-! ### Table loader
Embeds create_database_table (download_alimconfiance_data.py lines 393-503,
download_osm_data.py lines 409-520).  The destination table state is
Option (List α): none when absent, some rows when present.  Oracles:
parseOk for read_parquet, dropOk for the DROP TABLE transaction, insertOk
for the to_sql bulk insert (with the number of rows that had been inserted
when it failed, an accepted partial state), commentOk for the final
comment-and-count transaction.  Any raising step is caught by the outer
except and the function returns False. -/

structure DbOutcomes : Type where
  parseOk : Bool
  dropOk : Bool
  insertOk : Bool
  insertedBeforeFailure : Nat
  commentOk : Bool
deriving DecidableEq

structure LoadResult (α : Type) : Type where
  success : Bool
  table : Option (List α)

def create_database_table {α : Type} (o : DbOutcomes) (prior : Option (List α))
    (rows : List α) : LoadResult α :=
  if !o.parseOk then ⟨false, prior⟩
  else if !o.dropOk then ⟨false, prior⟩
  else if !o.insertOk then ⟨false, some (rows.take o.insertedBeforeFailure)⟩
  else if !o.commentOk then ⟨false, some rows⟩
  else ⟨true, some rows⟩

/-! ### Pipeline orchestrator
Embeds main (download_alimconfiance_data.py lines 506-597,
download_osm_data.py lines 523-614).  The two scripts share this shape with
folder export_alimconfiance resp. osm-france-food-service; the local file
name is folder-date.parquet.  The try body starts only after a successful
download, and its finally clause removes the temp file; when the download
returns None the script exits before the try, leaving the temp file in
whatever state the fetcher left it. -/

structure RunResult (α : Type) : Type where
  exitCode : Nat
  tempFile : Option Nat
  bucket : List String
  table : Option (List α)
  fetchCalled : Bool
  storageCalled : Bool
  dbCalled : Bool

def mainRun {α : Type} (env : String → Option String) (fo : FetchOutcome)
    (so : StorageOutcomes) (dbo : DbOutcomes) (rows : List α)
    (bucket : List String) (table : Option (List α)) (folder date : String) :
    RunResult α :=
  match loadEnvironment requiredVars env with
  | .error _ => ⟨1, none, bucket, table, false, false, false⟩
  | .ok _ =>
    let fetch := downloadSnapshot (folder ++ "-" ++ date ++ ".parquet") fo
    match fetch.returnedPath with
    | none => ⟨1, fetch.tempFile, bucket, table, true, false, false⟩
    | some _ =>
      let up := upload_to_storage so bucket folder date
      match up.returnedPath with
      | none => ⟨1, none, up.bucket, table, true, true, false⟩
      | some _ =>
        let load := create_database_table dbo table rows
        if load.success then ⟨0, none, up.bucket, load.table, true, true, true⟩
        else ⟨1, none, up.bucket, load.table, true, true, true⟩

/-- All storage calls succeed. -/
def allOkStorage : StorageOutcomes := ⟨true, true, true, true⟩

/-- All database steps succeed. -/
def allOkDb : DbOutcomes := ⟨true, true, true, 0, true⟩

/-- An environment in which every variable is configured. -/
def goodEnv : String → Option String := fun _ => some "configured"

/-! ### Lookup API (src/main.py)
Embeds the POST get_restaurants endpoint (lines 55-96).  A warehouse row
carries the dash-joined columns of the BigQuery table; Lean field names use
underscores in place of the dashes of the SQL column names.  Coordinates
are modelled as rationals: the SQL BETWEEN comparison on doubles is
order-isomorphic to the rational comparison for the (non-NaN) values
involved.  Inspection dates are carried as opaque strings, copied
unchanged by the endpoint. -/

structure WarehouseControle : Type where
  ea_date_inspection : String
  ea_app_code_synthese_eval_sanit : Int
deriving DecidableEq

structure WarehouseRow : Type where
  osm_ffs_name : String
  osm_ffs_meta_geo_point_latitude : ℚ
  osm_ffs_meta_geo_point_longitude : ℚ
  ea_app_libelle_etablissement : String
  ea_date_inspection : String
  ea_synthese_eval_sanit : String
  ea_app_code_synthese_eval_sanit : Int
  ea_full_address : String
  nombre_controles_sanitaires : Int
  controles_sanitaires : List WarehouseControle
  gmp_pd_rating : Option ℚ
  gmp_pd_googleMapsUri : Option String
  gmp_pd_userRatingCount : Option Int
  t_ld_web_url : Option String
  t_ld_rating : Option ℚ
  t_ld_num_reviews : Option Int
deriving DecidableEq

/-- Response model ControleSanitaire of src/main.py. -/
structure ControleSanitaire : Type where
  ea_date_inspection : String
  ea_app_code_synthese_eval_sanit : Int
deriving DecidableEq

/-- Response model Restaurant of src/main.py. -/
structure Restaurant : Type where
  osm_ffs_name : String
  osm_ffs_meta_geo_point_latitude : ℚ
  osm_ffs_meta_geo_point_longitude : ℚ
  ea_app_libelle_etablissement : String
  ea_date_inspection : String
  ea_synthese_eval_sanit : String
  ea_app_code_synthese_eval_sanit : Int
  ea_full_address : String
  nombre_controles_sanitaires : Int
  controles_sanitaires : List ControleSanitaire
  gmp_pd_rating : Option ℚ
  gmp_pd_googleMapsUri : Option String
  gmp_pd_userRatingCount : Option Int
  t_ld_web_url : Option String
  t_ld_rating : Option ℚ
  t_ld_num_reviews : Option Int
deriving DecidableEq

/-- Request model BoiteEnglobante of src/main.py. -/
structure BoiteEnglobante : Type where
  latitude_minimum : ℚ
  longitude_minimum : ℚ
  latitude_maximum : ℚ
  longitude_maximum : ℚ
deriving DecidableEq

/-- The WHERE clause of the warehouse query: latitude BETWEEN
latitude_minimum AND latitude_maximum, and likewise for longitude.  SQL
BETWEEN is the closed interval: a BETWEEN x AND y means x <= a AND a <= y. -/
def matchesBox (b : BoiteEnglobante) (r : WarehouseRow) : Bool :=
  decide (b.latitude_minimum ≤ r.osm_ffs_meta_geo_point_latitude ∧
    r.osm_ffs_meta_geo_point_latitude ≤ b.latitude_maximum ∧
    b.longitude_minimum ≤ r.osm_ffs_meta_geo_point_longitude ∧
    r.osm_ffs_meta_geo_point_longitude ≤ b.longitude_maximum)

/-- The rows the SELECT returns: the warehouse rows satisfying the WHERE
clause, in table order. -/
def queryRows (b : BoiteEnglobante) (warehouse : List WarehouseRow) : List WarehouseRow :=
  warehouse.filter (matchesBox b)

/-- The inner loop over row controles_sanitaires: each history entry is
repackaged with the dash-joined keys renamed to underscore-joined keys
(lines 73-77). -/
def toControle (c : WarehouseControle) : ControleSanitaire :=
  ⟨c.ea_date_inspection, c.ea_app_code_synthese_eval_sanit⟩

/-- The per-row restaurant dictionary built at lines 78-95: every field is
copied from the corresponding dash-joined row field, the history list is
the mapped controles_sanitaires, and nombre_controles_sanitaires is read
from the row column of that name. -/
def toRestaurant (r : WarehouseRow) : Restaurant where
  osm_ffs_name := r.osm_ffs_name
  osm_ffs_meta_geo_point_latitude := r.osm_ffs_meta_geo_point_latitude
  osm_ffs_meta_geo_point_longitude := r.osm_ffs_meta_geo_point_longitude
  ea_app_libelle_etablissement := r.ea_app_libelle_etablissement
  ea_date_inspection := r.ea_date_inspection
  ea_synthese_eval_sanit := r.ea_synthese_eval_sanit
  ea_app_code_synthese_eval_sanit := r.ea_app_code_synthese_eval_sanit
  ea_full_address := r.ea_full_address
  nombre_controles_sanitaires := r.nombre_controles_sanitaires
  controles_sanitaires := r.controles_sanitaires.map toControle
  gmp_pd_rating := r.gmp_pd_rating
  gmp_pd_googleMapsUri := r.gmp_pd_googleMapsUri
  gmp_pd_userRatingCount := r.gmp_pd_userRatingCount
  t_ld_web_url := r.t_ld_web_url
  t_ld_rating := r.t_ld_rating
  t_ld_num_reviews := r.t_ld_num_reviews

/-- The endpoint body: query the warehouse with the bounding-box predicate
and map every returned row to a response restaurant. -/
def get_restaurants (b : BoiteEnglobante) (warehouse : List WarehouseRow) : List Restaurant :=
  (queryRows b warehouse).map toRestaurant

/-! ### Concrete sample data used by witnesses and counterexamples -/

def sampleControle : WarehouseControle := ⟨"2024-05-01", 1⟩

def sampleRow : WarehouseRow :=
  ⟨"Chez Test", 1, 2, "Restaurant", "2024-05-01", "Satisfaisant", 1,
   "1 rue de la Paix", 3, [sampleControle], none, none, none, none, none, none⟩

/-- An environment in which every required variable is set, but the database
connection string is set to the empty string. -/
def envWithEmptyKey : String → Option String :=
  fun v => if v = "SUPABASE_DB_URI" then some "" else some "configured"

/-! ### Helper lemmas -/

theorem collectVars_eq (env : String → Option String) (l : List String) :
    collectVars env l =
      (l.filterMap (fun v => if truthy (env v) then some (v, (env v).getD "") else none),
       l.filter (fun v => !truthy (env v))) := by
  induction l with
  | nil => rfl
  | cons v rest ih =>
    by_cases h : truthy (env v) <;> simp [collectVars, ih, h]

theorem filterMap_all_some (env : String → Option String) (l : List String)
    (h : ∀ v ∈ l, truthy (env v) = true) :
    l.filterMap (fun v => if truthy (env v) then some (v, (env v).getD "") else none) =
      l.map (fun v => (v, (env v).getD "")) := by
  induction l with
  | nil => rfl
  | cons v rest ih =>
    simp [List.filterMap_cons, h v (by simp),
      ih (fun u hu => h u (by simp [hu]))]

theorem loadEnvironment_ok (required : List String) (env : String → Option String)
    (h : ∀ v ∈ required, truthy (env v) = true) :
    loadEnvironment required env = .ok (required.map (fun v => (v, (env v).getD ""))) := by
  have hfil : required.filter (fun v => !truthy (env v)) = [] := by
    rw [List.filter_eq_nil_iff]
    intro a ha
    simp [h a ha]
  unfold loadEnvironment
  rw [collectVars_eq, filterMap_all_some env required h]
  simp [hfil]

theorem loadEnvironment_missing (required : List String) (env : String → Option String)
    (h : required.filter (fun v => !truthy (env v)) ≠ []) :
    loadEnvironment required env = .error (required.filter (fun v => !truthy (env v))) := by
  unfold loadEnvironment
  rw [collectVars_eq]
  have : (required.filter (fun v => !truthy (env v))).isEmpty = false := by
    cases hfe : required.filter (fun v => !truthy (env v)) with
    | nil => exact absurd hfe h
    | cons a l => rfl
  simp [this]

theorem count_filter_ne_self (l : List String) (t : String) :
    (l.filter (fun p => !(p == t))).count t = 0 := by
  rw [List.count_eq_zero]
  intro hmem
  have := List.of_mem_filter hmem
  simp at this

theorem count_upload_bucket (l : List String) (t : String) :
    ((if l.contains t then l.filter (fun p => !(p == t)) else l) ++ [t]).count t = 1 := by
  by_cases h : t ∈ l
  · simp [h, List.count_append, count_filter_ne_self]
  · simp [h, List.count_append, List.count_eq_zero.mpr h]

theorem mainRun_all_ok {α : Type} (env : String → Option String)
    (vars : List (String × String)) (henv : loadEnvironment requiredVars env = .ok vars)
    (sz : Nat) (rows : List α) (bucket : List String) (table : Option (List α))
    (folder date : String) :
    mainRun env (.complete (sz + 1)) allOkStorage allOkDb rows bucket table folder date =
      ⟨0, none,
       (if bucket.contains (storagePathOf folder date) then
          bucket.filter (fun p => !(p == storagePathOf folder date)) else bucket)
         ++ [storagePathOf folder date],
       some rows, true, true, true⟩ := by
  simp [mainRun, henv, downloadSnapshot, upload_to_storage, create_database_table,
    allOkStorage, allOkDb]

/-! ### Claim theorems -/

/-- Claim C1: running the ingestion pipeline twice in succession for the same
logical date is idempotent: after the second run exactly one archived object
exists at folder/date.parquet (the publisher deletes the object whose name
matches the date before uploading), and the bronze table contains exactly the
rows of the source file, with row count equal to the source row count and not
doubled. -/
theorem pipeline_rerun_idempotent {α : Type} (sz : Nat) (rows : List α)
    (bucket : List String) (table : Option (List α)) (folder date : String) :
    (mainRun goodEnv (.complete (sz + 1)) allOkStorage allOkDb rows
      (mainRun goodEnv (.complete (sz + 1)) allOkStorage allOkDb rows
        bucket table folder date).bucket
      (mainRun goodEnv (.complete (sz + 1)) allOkStorage allOkDb rows
        bucket table folder date).table
      folder date).bucket.count (storagePathOf folder date) = 1 ∧
    (mainRun goodEnv (.complete (sz + 1)) allOkStorage allOkDb rows
      (mainRun goodEnv (.complete (sz + 1)) allOkStorage allOkDb rows
        bucket table folder date).bucket
      (mainRun goodEnv (.complete (sz + 1)) allOkStorage allOkDb rows
        bucket table folder date).table
      folder date).table = some rows ∧
    ((mainRun goodEnv (.complete (sz + 1)) allOkStorage allOkDb rows
      (mainRun goodEnv (.complete (sz + 1)) allOkStorage allOkDb rows
        bucket table folder date).bucket
      (mainRun goodEnv (.complete (sz + 1)) allOkStorage allOkDb rows
        bucket table folder date).table
      folder date).table.getD []).length = rows.length := by
  have henv : loadEnvironment requiredVars goodEnv =
      .ok [("SUPABASE_URL", "configured"), ("SUPABASE_SERVICE_ROLE_KEY", "configured"),
           ("SUPABASE_DB_URI", "configured")] := by rfl
  rw [mainRun_all_ok goodEnv _ henv, mainRun_all_ok goodEnv _ henv]
  refine ⟨?_, rfl, by simp⟩
  exact count_upload_bucket _ _

/-- Claim C2: a warehouse row is returned by the bounding-box query
of POST /get_restaurants exactly when its latitude and longitude both lie in
the closed bounding-box intervals, the response is the image of exactly those
rows, and for the degenerate box with all bounds 0 the response is empty
whenever no row has latitude and longitude both equal to 0. -/
theorem bounding_box_filter_iff (warehouse : List WarehouseRow) (b : BoiteEnglobante) :
    (∀ r, r ∈ queryRows b warehouse ↔
      (r ∈ warehouse ∧
        b.latitude_minimum ≤ r.osm_ffs_meta_geo_point_latitude ∧
        r.osm_ffs_meta_geo_point_latitude ≤ b.latitude_maximum ∧
        b.longitude_minimum ≤ r.osm_ffs_meta_geo_point_longitude ∧
        r.osm_ffs_meta_geo_point_longitude ≤ b.longitude_maximum)) ∧
    get_restaurants b warehouse = (queryRows b warehouse).map toRestaurant ∧
    ((∀ r ∈ warehouse, ¬(r.osm_ffs_meta_geo_point_latitude = 0 ∧
        r.osm_ffs_meta_geo_point_longitude = 0)) →
      get_restaurants ⟨0, 0, 0, 0⟩ warehouse = []) := by
  refine ⟨fun r => ?_, rfl, fun h => ?_⟩
  · simp [queryRows, List.mem_filter, matchesBox]
  · have hq : queryRows ⟨0, 0, 0, 0⟩ warehouse = [] := by
      rw [queryRows, List.filter_eq_nil_iff]
      intro r hr
      simp only [matchesBox, decide_eq_true_eq, not_and]
      intro h1 h2 h3 h4
      exact h r hr ⟨le_antisymm h2 h1, le_antisymm h4 h3⟩
    simp [get_restaurants, hq]

/-- Witness for claim C2 at a concrete warehouse: the sample row at
latitude 1, longitude 2 is returned for the box [0,2] x [0,3], and the
degenerate box with all bounds 0 returns the empty list. -/
theorem bounding_box_filter_iff_witness :
    sampleRow ∈ queryRows ⟨0, 0, 2, 3⟩ [sampleRow] ∧
    get_restaurants ⟨0, 0, 0, 0⟩ [sampleRow] = [] :=
  ⟨((bounding_box_filter_iff [sampleRow] ⟨0, 0, 2, 3⟩).1 sampleRow).mpr (by decide),
   (bounding_box_filter_iff [sampleRow] ⟨0, 0, 0, 0⟩).2.2 (by decide)⟩

/-- Claim C3 (code bug): a transport error raised while streaming chunks,
after 5 bytes were already written to the temp file, makes the fetcher
return None without removing the partial file (the except handlers only
print), and main exits with status 1 before its try/finally block, so the
created temp file still exists after process exit with its 5 bytes. -/
theorem cleanup_violation_partial_download :
    (mainRun goodEnv (.streamError 5) allOkStorage allOkDb ([] : List Nat) [] none
      "export_alimconfiance" "2025-12-09").exitCode = 1 ∧
    (mainRun goodEnv (.streamError 5) allOkStorage allOkDb ([] : List Nat) [] none
      "export_alimconfiance" "2025-12-09").tempFile = some 5 ∧
    downloadSnapshot "export_alimconfiance-2025-12-09.parquet" (.streamError 5) =
      ⟨none, some 5⟩ :=
  ⟨rfl, rfl, rfl⟩

/-- Claim C4: a completed download whose file has size 0 is rejected: the
file is deleted and no path is returned; conversely whenever a path is
returned, the temp file at that path is non-empty. -/
theorem zero_byte_download_rejected (filename : String) (o : FetchOutcome) :
    (o = .complete 0 → downloadSnapshot filename o = ⟨none, none⟩) ∧
    (∀ p, (downloadSnapshot filename o).returnedPath = some p →
      ∃ n, (downloadSnapshot filename o).tempFile = some n ∧ 0 < n) := by
  constructor
  · rintro rfl
    rfl
  · intro p hp
    cases o with
    | connectError => simp [downloadSnapshot] at hp
    | streamError w => simp [downloadSnapshot] at hp
    | complete n =>
      by_cases h : n = 0
      · subst h
        simp [downloadSnapshot] at hp
      · exact ⟨n, by simp [downloadSnapshot, h], Nat.pos_of_ne_zero h⟩

/-- Witness for claim C4: the zero-byte completed download is removed and
yields no path, and a 7-byte completed download yields a path to a non-empty
file. -/
theorem zero_byte_download_rejected_witness :
    downloadSnapshot "export_alimconfiance-2025-12-09.parquet" (.complete 0) = ⟨none, none⟩ ∧
    ∃ n, (downloadSnapshot "export_alimconfiance-2025-12-09.parquet"
      (.complete 7)).tempFile = some n ∧ 0 < n :=
  ⟨(zero_byte_download_rejected "export_alimconfiance-2025-12-09.parquet" (.complete 0)).1 rfl,
   (zero_byte_download_rejected "export_alimconfiance-2025-12-09.parquet" (.complete 7)).2
     (tempPath "export_alimconfiance-2025-12-09.parquet") rfl⟩

/-- Claim C5: whenever create_database_table returns True for a source file
parsed into the given rows, the destination table contains exactly those
rows (COUNT equals the parsed row count), independently of the prior table
contents: a full replace, never an append or merge. -/
theorem table_replace_exact_rows {α : Type} (o : DbOutcomes) (prior : Option (List α))
    (rows : List α) (h : (create_database_table o prior rows).success = true) :
    (create_database_table o prior rows).table = some rows ∧
    ((create_database_table o prior rows).table.getD []).length = rows.length := by
  unfold create_database_table at h ⊢
  by_cases h1 : o.parseOk <;> by_cases h2 : o.dropOk <;> by_cases h3 : o.insertOk <;>
    by_cases h4 : o.commentOk <;> simp [h1, h2, h3, h4] at h ⊢

/-- Witness for claim C5: loading the single-row source over a three-row
prior table succeeds and leaves exactly the one new row. -/
theorem table_replace_exact_rows_witness :
    (create_database_table allOkDb (some [9, 9, 9]) [5]).success = true ∧
    (create_database_table allOkDb (some [9, 9, 9]) [5]).table = some [5] ∧
    ((create_database_table allOkDb (some [9, 9, 9]) [5]).table.getD []).length = [5].length :=
  ⟨rfl, (table_replace_exact_rows allOkDb (some [9, 9, 9]) [5] rfl).1,
   (table_replace_exact_rows allOkDb (some [9, 9, 9]) [5] rfl).2⟩

/-- Claim C6: the pre-upload delete is best-effort: for every outcome of the
list and delete calls the publisher still attempts the upload, and it
returns None exactly when the upload call itself fails. -/
theorem publisher_best_effort_delete (o : StorageOutcomes) (bucket : List String)
    (folder date : String) (h : o.readOk = true) :
    (upload_to_storage o bucket folder date).uploadAttempted = true ∧
    ((upload_to_storage o bucket folder date).returnedPath = none ↔ o.uploadOk = false) := by
  unfold upload_to_storage
  by_cases hu : o.uploadOk <;> simp [h, hu]

/-- Witness for claim C6: with both the list call and the delete call
failing and the upload succeeding, the publisher still attempts and
completes the upload and does not return None. -/
theorem publisher_best_effort_delete_witness :
    (⟨true, false, false, true⟩ : StorageOutcomes).readOk = true ∧
    (upload_to_storage ⟨true, false, false, true⟩
      ["export_alimconfiance/2025-12-09.parquet"] "export_alimconfiance"
      "2025-12-09").uploadAttempted = true ∧
    ((upload_to_storage ⟨true, false, false, true⟩
      ["export_alimconfiance/2025-12-09.parquet"] "export_alimconfiance"
      "2025-12-09").returnedPath = none ↔
      (⟨true, false, false, true⟩ : StorageOutcomes).uploadOk = false) :=
  ⟨rfl,
   (publisher_best_effort_delete ⟨true, false, false, true⟩
     ["export_alimconfiance/2025-12-09.parquet"] "export_alimconfiance" "2025-12-09" rfl).1,
   (publisher_best_effort_delete ⟨true, false, false, true⟩
     ["export_alimconfiance/2025-12-09.parquet"] "export_alimconfiance" "2025-12-09" rfl).2⟩

/-- Claim C7: when the fetcher returns no path the orchestrator exits with
status 1 without any storage or database call and without mutating bucket or
table; the exit status is 0 exactly when configuration, download, upload and
load all succeed, and is 1 otherwise. -/
theorem orchestrator_exit_and_frame {α : Type} (env : String → Option String)
    (fo : FetchOutcome) (so : StorageOutcomes) (dbo : DbOutcomes) (rows : List α)
    (bucket : List String) (table : Option (List α)) (folder date : String) :
    ((downloadSnapshot (folder ++ "-" ++ date ++ ".parquet") fo).returnedPath = none →
      (mainRun env fo so dbo rows bucket table folder date).exitCode = 1 ∧
      (mainRun env fo so dbo rows bucket table folder date).storageCalled = false ∧
      (mainRun env fo so dbo rows bucket table folder date).dbCalled = false ∧
      (mainRun env fo so dbo rows bucket table folder date).bucket = bucket ∧
      (mainRun env fo so dbo rows bucket table folder date).table = table) ∧
    ((mainRun env fo so dbo rows bucket table folder date).exitCode = 0 ↔
      (exceptOk (loadEnvironment requiredVars env) = true ∧
       (downloadSnapshot (folder ++ "-" ++ date ++ ".parquet") fo).returnedPath.isSome = true ∧
       (upload_to_storage so bucket folder date).returnedPath.isSome = true ∧
       (create_database_table dbo table rows).success = true)) ∧
    ((mainRun env fo so dbo rows bucket table folder date).exitCode = 0 ∨
     (mainRun env fo so dbo rows bucket table folder date).exitCode = 1) := by
  cases henv : loadEnvironment requiredVars env with
  | error e => simp [mainRun, henv, exceptOk]
  | ok vars =>
    cases hf : (downloadSnapshot (folder ++ "-" ++ date ++ ".parquet") fo).returnedPath with
    | none => simp [mainRun, henv, hf, exceptOk]
    | some p =>
      cases hu : (upload_to_storage so bucket folder date).returnedPath with
      | none => simp [mainRun, henv, hf, hu, exceptOk]
      | some q =>
        cases hl : (create_database_table dbo table rows).success <;>
          simp [mainRun, henv, hf, hu, hl, exceptOk]

/-- Witness for claim C7: with an unreachable source URL the fetcher returns
no path, and the orchestrator exits 1 leaving the pristine bucket and the
absent table untouched, with no storage and no database call. -/
theorem orchestrator_exit_and_frame_witness :
    (mainRun goodEnv .connectError allOkStorage allOkDb ([3] : List Nat) ["keep"] none
      "export_alimconfiance" "2025-12-09").exitCode = 1 ∧
    (mainRun goodEnv .connectError allOkStorage allOkDb ([3] : List Nat) ["keep"] none
      "export_alimconfiance" "2025-12-09").storageCalled = false ∧
    (mainRun goodEnv .connectError allOkStorage allOkDb ([3] : List Nat) ["keep"] none
      "export_alimconfiance" "2025-12-09").dbCalled = false ∧
    (mainRun goodEnv .connectError allOkStorage allOkDb ([3] : List Nat) ["keep"] none
      "export_alimconfiance" "2025-12-09").bucket = ["keep"] ∧
    (mainRun goodEnv .connectError allOkStorage allOkDb ([3] : List Nat) ["keep"] none
      "export_alimconfiance" "2025-12-09").table = none :=
  (orchestrator_exit_and_frame goodEnv .connectError allOkStorage allOkDb [3] ["keep"] none
    "export_alimconfiance" "2025-12-09").1 rfl

/-- Claim C8 counterexample: in an environment where every required key is
present (set) but the database connection string is bound to the empty
string, load_environment does not return the mapping: the code treats the
empty value as missing and terminates, naming SUPABASE_DB_URI. -/
theorem env_loader_counterexample :
    (envWithEmptyKey "SUPABASE_URL").isSome = true ∧
    (envWithEmptyKey "SUPABASE_SERVICE_ROLE_KEY").isSome = true ∧
    (envWithEmptyKey "SUPABASE_DB_URI").isSome = true ∧
    loadEnvironment requiredVars envWithEmptyKey = .error ["SUPABASE_DB_URI"] :=
  ⟨rfl, rfl, rfl, rfl⟩

/-- Claim C8 as amended: the loader is all-or-nothing with presence read as
a non-empty value: when every required key has a non-empty value it returns
exactly the required keys with their values; when some required key is unset
or empty it terminates with a message naming every such key, and the
orchestrator then exits 1 with no download, storage or database call
attempted. -/
theorem env_loader_all_or_nothing (required : List String) (env : String → Option String) :
    ((∀ v ∈ required, truthy (env v) = true) →
      loadEnvironment required env = .ok (required.map (fun v => (v, (env v).getD "")))) ∧
    (required.filter (fun v => !truthy (env v)) ≠ [] →
      loadEnvironment required env = .error (required.filter (fun v => !truthy (env v)))) ∧
    (∀ (α : Type) (fo : FetchOutcome) (so : StorageOutcomes) (dbo : DbOutcomes)
      (rows : List α) (bucket : List String) (table : Option (List α)) (folder date : String),
      requiredVars.filter (fun v => !truthy (env v)) ≠ [] →
      (mainRun env fo so dbo rows bucket table folder date).fetchCalled = false ∧
      (mainRun env fo so dbo rows bucket table folder date).storageCalled = false ∧
      (mainRun env fo so dbo rows bucket table folder date).dbCalled = false ∧
      (mainRun env fo so dbo rows bucket table folder date).exitCode = 1) := by
  refine ⟨loadEnvironment_ok required env, loadEnvironment_missing required env,
    fun α fo so dbo rows bucket table folder date hm => ?_⟩
  have hload := loadEnvironment_missing requiredVars env hm
  simp [mainRun, hload]

/-- Witness for claim C8 as amended: with every variable configured the
loader returns exactly the three required keys with their values. -/
theorem env_loader_all_or_nothing_witness :
    truthy (goodEnv "SUPABASE_URL") = true ∧
    loadEnvironment requiredVars goodEnv =
      .ok [("SUPABASE_URL", "configured"), ("SUPABASE_SERVICE_ROLE_KEY", "configured"),
           ("SUPABASE_DB_URI", "configured")] := by
  refine ⟨rfl, ?_⟩
  have h := (env_loader_all_or_nothing requiredVars goodEnv).1 (by decide)
  rw [h]
  rfl

/-- Claim C9: get_alimconfiance_date formats the current day as YYYY-MM-DD,
and get_osm_date formats the most recent Monday on or before the current
day: the day itself when its Python weekday index (Monday = 0) is 0,
otherwise the day minus its weekday index; the chosen day is a Monday, lies
at most the weekday index before today, and no later Monday precedes today. -/
theorem snapshot_date_labels (today : Nat) (h : 6 ≤ today) :
    get_alimconfiance_date today = formatYMD today ∧
    get_osm_date today = formatYMD (get_osm_day today) ∧
    pyWeekday (get_osm_day today) = 0 ∧
    get_osm_day today ≤ today ∧
    (pyWeekday today = 0 → get_osm_day today = today) ∧
    (pyWeekday today ≠ 0 → get_osm_day today = today - pyWeekday today) ∧
    (∀ m, m ≤ today → pyWeekday m = 0 → m ≤ get_osm_day today) := by
  refine ⟨rfl, rfl, ?_, ?_, ?_, ?_, ?_⟩
  · simp only [get_osm_day, pyWeekday]
    split <;> omega
  · simp only [get_osm_day, pyWeekday]
    split <;> omega
  · intro h0
    simp only [get_osm_day, h0, if_pos]
  · intro h0
    simp only [get_osm_day, pyWeekday] at h0 ⊢
    split <;> omega
  · intro m hm hw
    simp only [pyWeekday] at hw
    simp only [get_osm_day, pyWeekday]
    split <;> omega

/-- Witness for claim C9 at Wednesday 2025-10-22 (day 20383 since
1970-01-01): the OSM snapshot day is the previous Monday 2025-10-20 and the
two labels format as expected. -/
theorem snapshot_date_labels_witness :
    pyWeekday (get_osm_day 20383) = 0 ∧
    get_osm_day 20383 = 20381 ∧
    get_osm_date 20383 = "2025-10-20" ∧
    get_alimconfiance_date 20383 = "2025-10-22" ∧
    pyWeekday 20383 = 2 :=
  ⟨(snapshot_date_labels 20383 (by decide)).2.2.1, by decide, by decide, by decide, by decide⟩

/-- Claim C10: each response restaurant of POST /get_restaurants carries the
history list obtained by renaming each entry of the row history from the
dash-joined to the underscore-joined keys, entry for entry and in order;
every other field is copied unchanged from the corresponding dash-joined row
field, and nombre_controles_sanitaires comes from the row count column, not
from the length of the history list. -/
theorem restaurant_mapping_fields (r : WarehouseRow) :
    (toRestaurant r).controles_sanitaires = r.controles_sanitaires.map toControle ∧
    (toRestaurant r).controles_sanitaires.length = r.controles_sanitaires.length ∧
    (∀ c, (toControle c).ea_date_inspection = c.ea_date_inspection ∧
      (toControle c).ea_app_code_synthese_eval_sanit = c.ea_app_code_synthese_eval_sanit) ∧
    (toRestaurant r).osm_ffs_name = r.osm_ffs_name ∧
    (toRestaurant r).osm_ffs_meta_geo_point_latitude = r.osm_ffs_meta_geo_point_latitude ∧
    (toRestaurant r).osm_ffs_meta_geo_point_longitude = r.osm_ffs_meta_geo_point_longitude ∧
    (toRestaurant r).ea_app_libelle_etablissement = r.ea_app_libelle_etablissement ∧
    (toRestaurant r).ea_date_inspection = r.ea_date_inspection ∧
    (toRestaurant r).ea_synthese_eval_sanit = r.ea_synthese_eval_sanit ∧
    (toRestaurant r).ea_app_code_synthese_eval_sanit = r.ea_app_code_synthese_eval_sanit ∧
    (toRestaurant r).ea_full_address = r.ea_full_address ∧
    (toRestaurant r).nombre_controles_sanitaires = r.nombre_controles_sanitaires ∧
    (toRestaurant r).gmp_pd_rating = r.gmp_pd_rating ∧
    (toRestaurant r).gmp_pd_googleMapsUri = r.gmp_pd_googleMapsUri ∧
    (toRestaurant r).gmp_pd_userRatingCount = r.gmp_pd_userRatingCount ∧
    (toRestaurant r).t_ld_web_url = r.t_ld_web_url ∧
    (toRestaurant r).t_ld_rating = r.t_ld_rating ∧
    (toRestaurant r).t_ld_num_reviews = r.t_ld_num_reviews := by
  refine ⟨rfl, by simp [toRestaurant], fun c => ⟨rfl, rfl⟩, rfl, rfl, rfl, rfl, rfl, rfl,
    rfl, rfl, rfl, rfl, rfl, rfl, rfl, rfl, rfl⟩

end SurEtBon
